import Mathlib

/-!
Verification development for the customer-sentiment watchdog core:
risk scoring (`src/tools/risk_assessor.py`), escalation routing
(`src/tools/escalation_router.py`), alert decision with cooldown
(`src/app/agents/alert_manager.py`) and trend aggregation
(`src/app/agents/trend_analyzer.py`), shallowly embedded over `Rat`
for Python floats, association lists for Python dicts, and an explicit
`now` parameter wherever the source reads the current clock.
-/

namespace Watchdog

/-- Python substring test `needle in hay` on character lists. -/
def containsSubAux : List Char → List Char → Bool
  | needle, [] => needle.isEmpty
  | needle, c :: rest => needle.isPrefixOf (c :: rest) || containsSubAux needle rest

/-- `needle in hay` for strings (Python `in` operator). -/
def strContains (hay needle : String) : Bool :=
  containsSubAux needle.data hay.data

/-- Python `min(a, b)` on rationals, written so that it evaluates by
kernel reduction. -/
def pymin (a b : ℚ) : ℚ := if a ≤ b then a else b

/-- Python `str.lower()`, modelled character-wise (the source only
matches ASCII keyword lists against the lowered text). -/
def lowerStr (s : String) : String := ⟨s.data.map Char.toLower⟩

/-- `emotions.get(key, 0.0)` — dict lookup with default 0. -/
def emoGet (emotions : List (String × ℚ)) (key : String) : ℚ :=
  (emotions.lookup key).getD 0

/-- Sentiment signal as consumed by `RiskAssessor.assess_risk`
(`sentiment_result` dict: `text`, `overall_sentiment`, `emotions`,
`urgency_level`; missing keys default as in the source `.get` calls). -/
structure SentimentInput where
  text : String
  overall_sentiment : ℚ
  emotions : List (String × ℚ)
  urgency_level : String
  deriving DecidableEq

/-- Ticket data (`ticket_data` dict) with the fields the core reads.
`customer_since` is the parsed account-creation instant in days; `none`
covers both a missing key and an unparsable date (the source's
`except: pass`). -/
structure Ticket where
  channel : String
  source : String
  priority : String
  customer_tier : String
  account_value : ℚ
  customer_since : Option ℚ
  is_vip : Bool
  content : String
  deriving DecidableEq

/-- `RiskAssessor.churn_indicators`. -/
def churnIndicators : List String :=
  ["cancel", "refund", "unsubscribe", "delete account", "close account",
   "never use again", "switch to competitor", "terrible service",
   "worst experience", "hate this", "useless", "waste of money"]

/-- `RiskAssessor.escalation_indicators`. -/
def escalationIndicators : List String :=
  ["urgent", "asap", "immediately", "now", "critical", "emergency",
   "escalate", "manager", "supervisor", "ceo", "legal", "lawyer",
   "social media", "twitter", "facebook", "review", "complain"]

/-- `RiskAssessor._find_churn_indicators`. -/
def findChurnIndicators (text : String) : List String :=
  churnIndicators.filter (fun ind => strContains text ind)

/-- `RiskAssessor._find_escalation_indicators`. -/
def findEscalationIndicators (text : String) : List String :=
  escalationIndicators.filter (fun ind => strContains text ind)

/-- `max(emotions.values())` when nonempty, else `0.0`. -/
def maxEmotionValue (emotions : List (String × ℚ)) : ℚ :=
  match emotions.map Prod.snd with
  | [] => 0
  | v :: vs => vs.foldl max v

/-- `RiskAssessor._assess_emotional_intensity`. -/
def assessEmotionalIntensity (emotions : List (String × ℚ)) : String :=
  let m := maxEmotionValue emotions
  if m > 0.8 then "high" else if m > 0.5 then "medium" else "low"

/-- `RiskAssessor._calculate_churn_risk`. -/
def calculateChurnRisk (text : String) (sentiment : ℚ)
    (emotions : List (String × ℚ)) : ℚ :=
  let base : ℚ := if sentiment < -0.5 then 0.4 else if sentiment < -0.2 then 0.2 else 0
  let indicatorRisk : ℚ := ((findChurnIndicators text).length : ℚ) * 0.15
  let anger := emoGet emotions "anger"
  let frustration := emoGet emotions "frustration"
  let emotionRisk : ℚ :=
    if anger > 0.7 ∨ frustration > 0.8 then 0.3
    else if anger > 0.5 ∨ frustration > 0.6 then 0.2
    else 0
  pymin 1 (base + indicatorRisk + emotionRisk)

/-- `urgency_weights.get(urgency_level, 0.1)` with
`{"high": 0.4, "medium": 0.2, "low": 0.1}` (same table in
`_calculate_escalation_risk` and `_calculate_response_urgency`). -/
def urgencyWeight (urgency_level : String) : ℚ :=
  if urgency_level = "high" then 0.4
  else if urgency_level = "medium" then 0.2
  else 0.1

/-- `RiskAssessor._calculate_escalation_risk`. -/
def calculateEscalationRisk (text : String) (urgency_level : String)
    (emotions : List (String × ℚ)) : ℚ :=
  let base := urgencyWeight urgency_level
  let indicatorRisk : ℚ := ((findEscalationIndicators text).length : ℚ) * 0.1
  let intensity := assessEmotionalIntensity emotions
  let intensityRisk : ℚ :=
    if intensity = "high" then 0.3 else if intensity = "medium" then 0.2 else 0
  pymin 1 (base + indicatorRisk + intensityRisk)

/-- `tier_weights.get(customer_tier, 0.5)` in `_calculate_business_impact`. -/
def tierWeight (customer_tier : String) : ℚ :=
  if customer_tier = "enterprise" then 1
  else if customer_tier = "premium" then 0.8
  else if customer_tier = "standard" then 0.5
  else if customer_tier = "basic" then 0.3
  else 0.5

/-- `RiskAssessor._calculate_business_impact`; `now` is the current
clock in days (the source reads `datetime.now()` to compute
`years_as_customer = (now - customer_date).days / 365`). -/
def calculateBusinessImpact (t : Ticket) (churn_risk : ℚ) (now : ℚ) : ℚ :=
  let tierPart := tierWeight t.customer_tier * churn_risk
  let valuePart : ℚ :=
    if t.account_value > 10000 then 0.2
    else if t.account_value > 1000 then 0.1
    else 0
  let tenurePart : ℚ :=
    match t.customer_since with
    | none => 0
    | some since => if ((⌊now - since⌋ : ℚ) / 365) > 2 then 0.1 else 0
  pymin 1 (tierPart + valuePart + tenurePart)

/-- `RiskAssessor._calculate_response_urgency`. -/
def calculateResponseUrgency (escalation_risk : ℚ) (urgency_level : String) : ℚ :=
  pymin 1 (escalation_risk * 0.6 + urgencyWeight urgency_level)

/-- `RiskAssessor._calculate_overall_risk`. -/
def calculateOverallRisk (churn escalation impact urgency : ℚ) : ℚ :=
  pymin 1 (churn * 0.3 + escalation * 0.25 + impact * 0.25 + urgency * 0.2)

/-- `RiskAssessor._get_risk_level` with the constructor's
`risk_thresholds = {critical: 0.9, high: 0.7, medium: 0.5, low: 0.3}`. -/
def getRiskLevel (risk_score : ℚ) : String :=
  if risk_score ≥ 0.9 then "critical"
  else if risk_score ≥ 0.7 then "high"
  else if risk_score ≥ 0.5 then "medium"
  else if risk_score ≥ 0.3 then "low"
  else "minimal"

/-- `RiskAssessor._calculate_priority_score`. -/
def calculatePriorityScore (overall_risk response_urgency : ℚ) : ℚ :=
  pymin 1 (overall_risk * 0.6 + response_urgency * 0.4)

/-- `RiskAssessor._assess_urgency_signals`. -/
structure UrgencySignals where
  urgency_words_found : List String
  urgency_level : String
  has_urgency_signals : Bool
  deriving DecidableEq

/-- Word list of `_assess_urgency_signals`. -/
def urgencyWords : List String :=
  ["urgent", "asap", "immediately", "now", "critical", "emergency"]

/-- `RiskAssessor._assess_urgency_signals`. -/
def assessUrgencySignals (text : String) (urgency_level : String) : UrgencySignals :=
  let found := urgencyWords.filter (fun w => strContains text w)
  { urgency_words_found := found
    urgency_level := urgency_level
    has_urgency_signals := decide (0 < found.length) || decide (urgency_level ≠ "low") }

/-- `RiskAssessor._generate_risk_recommendations`. -/
def generateRiskRecommendations (risk_level : String)
    (churn_risk escalation_risk : ℚ) : List String :=
  let base : List String :=
    if risk_level = "critical" then
      ["Immediate escalation required",
       "Assign to senior support representative",
       "Consider executive outreach",
       "Monitor closely for 24-48 hours"]
    else if risk_level = "high" then
      ["Escalate within 2 hours",
       "Assign to experienced support representative",
       "Consider proactive outreach",
       "Monitor customer behavior closely"]
    else if risk_level = "medium" then
      ["Respond within 4 hours",
       "Assign to appropriate support tier",
       "Monitor for escalation signals",
       "Consider follow-up within 24 hours"]
    else
      ["Standard response time acceptable",
       "Monitor for pattern changes",
       "Consider proactive engagement if patterns emerge"]
  let withChurn :=
    base ++ (if churn_risk > 0.7 then
      ["High churn risk - consider retention strategies"] else [])
  withChurn ++ (if escalation_risk > 0.7 then
    ["High escalation risk - prepare escalation resources"] else [])

/-- The four sub-scores (`risk_factors` dict of the result). -/
structure RiskFactors where
  churn_risk : ℚ
  escalation_risk : ℚ
  business_impact : ℚ
  response_urgency : ℚ
  deriving DecidableEq

/-- Successful result of `RiskAssessor.assess_risk`. -/
structure RiskResult where
  overall_risk : ℚ
  risk_level : String
  risk_factors : RiskFactors
  churn_indicators_found : List String
  escalation_indicators_found : List String
  emotional_intensity : String
  urgency_signals : UrgencySignals
  recommendations : List String
  priority_score : ℚ
  deriving DecidableEq

/-- Happy path of `RiskAssessor.assess_risk` (no exception raised). -/
def assessRisk (s : SentimentInput) (t : Ticket) (now : ℚ) : RiskResult :=
  let text := lowerStr s.text
  let churn := calculateChurnRisk text s.overall_sentiment s.emotions
  let escalation := calculateEscalationRisk text s.urgency_level s.emotions
  let impact := calculateBusinessImpact t churn now
  let urgency := calculateResponseUrgency escalation s.urgency_level
  let overall := calculateOverallRisk churn escalation impact urgency
  { overall_risk := overall
    risk_level := getRiskLevel overall
    risk_factors :=
      { churn_risk := churn, escalation_risk := escalation
        business_impact := impact, response_urgency := urgency }
    churn_indicators_found := findChurnIndicators text
    escalation_indicators_found := findEscalationIndicators text
    emotional_intensity := assessEmotionalIntensity s.emotions
    urgency_signals := assessUrgencySignals text s.urgency_level
    recommendations := generateRiskRecommendations (getRiskLevel overall) churn escalation
    priority_score := calculatePriorityScore overall urgency }

/-- The `except` branch of `RiskAssessor.assess_risk` (lines 104-110):
`{"overall_risk": 0.5, "risk_level": "unknown", "error": str(e)}`. -/
structure RiskErrorResult where
  overall_risk : ℚ
  risk_level : String
  error : String
  deriving DecidableEq

/-- Fallback value returned by `assess_risk` when scoring raises. -/
def assessRiskOnError (e : String) : RiskErrorResult :=
  { overall_risk := 0.5, risk_level := "unknown", error := e }

/-- `RiskAssessor.assess_risk` as a whole: the `fail` argument models
whether an exception fires inside the `try` block (carrying `str(e)`). -/
def assessRiskRun (fail : Option String) (s : SentimentInput) (t : Ticket)
    (now : ℚ) : RiskResult ⊕ RiskErrorResult :=
  match fail with
  | some e => Sum.inr (assessRiskOnError e)
  | none => Sum.inl (assessRisk s t now)

/-! ## EscalationRouter (`src/tools/escalation_router.py`) -/

/-- One entry of the constructor's `escalation_paths` table. -/
structure EscalationPath where
  immediate_actions : List String
  response_time : String
  channels : List String
  team : String
  deriving DecidableEq

/-- The `"low"` escalation path (also the `.get` default). -/
def lowPath : EscalationPath :=
  { immediate_actions := ["standard_support"]
    response_time := "24_hours"
    channels := ["email_standard"]
    team := "standard_support" }

/-- `self.escalation_paths.get(risk_level, self.escalation_paths["low"])`. -/
def escalationPathFor (risk_level : String) : EscalationPath :=
  if risk_level = "critical" then
    { immediate_actions := ["senior_support", "manager_alert", "executive_notification"]
      response_time := "immediate"
      channels := ["slack_urgent", "email_urgent", "phone_call"]
      team := "crisis_response" }
  else if risk_level = "high" then
    { immediate_actions := ["senior_support", "manager_alert"]
      response_time := "2_hours"
      channels := ["slack_high", "email_high"]
      team := "senior_support" }
  else if risk_level = "medium" then
    { immediate_actions := ["tier_2_support"]
      response_time := "4_hours"
      channels := ["slack_medium", "email_standard"]
      team := "tier_2_support" }
  else lowPath

/-- One entry of `self.team_capacities`: `{"max_active": _, "current_load": _}`. -/
structure TeamCap where
  max_active : ℤ
  current_load : ℤ
  deriving DecidableEq

/-- The mutable `team_capacities` table (dict keyed by team name). -/
abbrev Caps := List (String × TeamCap)

/-- Initial `team_capacities` set in the constructor. -/
def initialCaps : Caps :=
  [("crisis_response", ⟨5, 0⟩), ("senior_support", ⟨15, 0⟩),
   ("tier_2_support", ⟨30, 0⟩), ("standard_support", ⟨100, 0⟩)]

/-- `self.team_capacities.get(team, {"max_active": 10, "current_load": 0})`. -/
def capGet (caps : Caps) (team : String) : TeamCap :=
  (List.lookup team caps).getD ⟨10, 0⟩

/-- Dict assignment `self.team_capacities[team][...] = v` (the key is
updated in place, preserving dict order). -/
def capsSet (caps : Caps) (team : String) (v : TeamCap) : Caps :=
  caps.map (fun p => if p.1 = team then (p.1, v) else p)

/-- Fields consumed from the `risk_assessment` dict by
`route_escalation` (with the source's `.get` defaults applied by the
caller of this embedding). -/
structure RiskAssessmentIn where
  risk_level : String
  overall_risk : ℚ
  priority_score : ℚ
  churn_risk : ℚ
  deriving DecidableEq

/-- The `routing` dict built by `_determine_routing_details`. -/
structure Routing where
  assigned_team : String
  response_time : String
  channels : List String
  immediate_actions : List String
  deriving DecidableEq

/-- `EscalationRouter._accelerate_response_time`. -/
def accelerateResponseTime (current_time : String) : String :=
  if current_time = "24_hours" then "12_hours"
  else if current_time = "12_hours" then "4_hours"
  else if current_time = "4_hours" then "2_hours"
  else if current_time = "2_hours" then "1_hour"
  else if current_time = "1_hour" then "immediate"
  else current_time

/-- `EscalationRouter._determine_routing_details`; `now` is the current
clock in days, used for `years_as_customer`. -/
def determineRoutingDetails (risk_level : String) (priority_score : ℚ)
    (t : Ticket) (path : EscalationPath) (now : ℚ) : Routing :=
  let routing : Routing :=
    { assigned_team := path.team, response_time := path.response_time
      channels := path.channels, immediate_actions := path.immediate_actions }
  let routing :=
    if t.customer_tier = "enterprise" then
      { routing with assigned_team := "senior_support"
                     channels := routing.channels ++ ["dedicated_support_line"] }
    else if t.customer_tier = "premium" ∧ (risk_level = "low" ∨ risk_level = "medium") then
      { routing with assigned_team := "tier_2_support" }
    else routing
  let routing :=
    if t.account_value > 50000 then
      { routing with channels := routing.channels ++ ["executive_escalation"] }
    else if t.account_value > 10000 then
      { routing with channels := routing.channels ++ ["account_manager_notification"] }
    else routing
  let routing :=
    match t.customer_since with
    | none => routing
    | some since =>
        if ((⌊now - since⌋ : ℚ) / 365) > 5 then
          { routing with channels := routing.channels ++ ["loyalty_program_notification"] }
        else routing
  if priority_score > 0.8 then
    { routing with response_time := accelerateResponseTime routing.response_time }
  else routing

/-- `EscalationRouter._get_backup_team`. -/
def getBackupTeam (primary_team : String) : String :=
  if primary_team = "crisis_response" then "senior_support"
  else if primary_team = "senior_support" then "tier_2_support"
  else if primary_team = "tier_2_support" then "standard_support"
  else if primary_team = "standard_support" then "tier_2_support"
  else "standard_support"

/-- Result of `EscalationRouter._check_team_availability`.
`backup_team` and `escalation_reason` are the keys added only when the
team has no capacity. -/
structure TeamAvailability where
  team : String
  current_load : ℤ
  max_capacity : ℤ
  available_capacity : ℤ
  capacity_percentage : ℚ
  has_capacity : Bool
  backup_team : Option String
  escalation_reason : Option String
  deriving DecidableEq

/-- `EscalationRouter._check_team_availability`. -/
def checkTeamAvailability (caps : Caps) (team : String) : TeamAvailability :=
  let info := capGet caps team
  let has_capacity := decide (info.current_load < info.max_active)
  { team := team
    current_load := info.current_load
    max_capacity := info.max_active
    available_capacity := info.max_active - info.current_load
    capacity_percentage :=
      if info.max_active > 0 then
        ((info.current_load : ℚ) / (info.max_active : ℚ)) * 100
      else 0
    has_capacity := has_capacity
    backup_team := if has_capacity then none else some (getBackupTeam team)
    escalation_reason := if has_capacity then none else some "team_at_capacity" }

/-- The `plan` dict of `EscalationRouter._generate_escalation_plan`. -/
structure EscalationPlan where
  immediate_actions : List String
  assigned_team : String
  response_time : String
  channels : List String
  escalation_notes : List String
  deriving DecidableEq

/-- `EscalationRouter._generate_escalation_plan`. The source reads
`team_availability["backup_team"]` only when `has_capacity` is false,
where `_check_team_availability` always set it; `getD` supplies an
unreachable fallback for that key access. -/
def generateEscalationPlan (rd : Routing) (ta : TeamAvailability)
    (risk_level : String) (churn_risk : ℚ) : EscalationPlan :=
  { immediate_actions := rd.immediate_actions
    assigned_team := if ta.has_capacity then ta.team else ta.backup_team.getD ta.team
    response_time := rd.response_time
    channels := rd.channels
    escalation_notes :=
      (if ta.has_capacity then [] else
        ["Primary team " ++ rd.assigned_team ++ " at capacity, routing to "
          ++ ta.backup_team.getD ta.team]) ++
      (if risk_level = "critical" then
        ["Critical risk level - immediate attention required"] else []) ++
      (if churn_risk > 0.7 then
        ["High churn risk detected - retention focus required"] else []) }

/-- The `override` dict of `EscalationRouter._check_priority_override`. -/
structure PriorityOverride where
  should_override : Bool
  reason : Option String
  new_priority : Option String
  deriving DecidableEq

/-- Keyword list for legal/compliance override. -/
def legalKeywords : List String :=
  ["legal", "lawyer", "attorney", "compliance", "regulatory"]

/-- Keyword list for social-media override. -/
def socialKeywords : List String :=
  ["twitter", "facebook", "social media", "public", "review"]

/-- `EscalationRouter._check_priority_override` (the `risk_level`
argument is accepted and ignored, as in the source). -/
def checkPriorityOverride (t : Ticket) (risk_level : String) : PriorityOverride :=
  let override : PriorityOverride :=
    { should_override := false, reason := none, new_priority := none }
  let override :=
    if t.is_vip then
      { should_override := true, reason := some "VIP customer"
        new_priority := some "critical" }
    else override
  let text := lowerStr t.content
  let override :=
    if legalKeywords.any (fun kw => strContains text kw) then
      { should_override := true, reason := some "Legal/compliance concern"
        new_priority := some "critical" }
    else override
  if socialKeywords.any (fun kw => strContains text kw) then
    { should_override := true, reason := some "Social media escalation threat"
      new_priority := some "high" }
  else override

/-- Result of `EscalationRouter.route_escalation` (happy path). -/
structure RouteResult where
  escalation_level : String
  routing_details : Routing
  team_availability : TeamAvailability
  escalation_plan : EscalationPlan
  response_channels : List String
  estimated_response_time : String
  priority_override : PriorityOverride
  deriving DecidableEq

/-- `EscalationRouter.route_escalation` (happy path): pure reader of the
`team_capacities` state, the current clock passed as `now` in days. -/
def routeEscalation (ra : RiskAssessmentIn) (t : Ticket) (caps : Caps)
    (now : ℚ) : RouteResult :=
  let path := escalationPathFor ra.risk_level
  let rd := determineRoutingDetails ra.risk_level ra.priority_score t path now
  let ta := checkTeamAvailability caps rd.assigned_team
  let plan := generateEscalationPlan rd ta ra.risk_level ra.churn_risk
  { escalation_level := ra.risk_level
    routing_details := rd
    team_availability := ta
    escalation_plan := plan
    response_channels := rd.channels
    estimated_response_time := rd.response_time
    priority_override := checkPriorityOverride t ra.risk_level }

/-- A call to `route_escalation` as a transition on the object state:
the method reads `self.team_capacities` and performs no assignment to
it, so the post-state equals the pre-state. -/
def routeEscalationCall (ra : RiskAssessmentIn) (t : Ticket) (caps : Caps)
    (now : ℚ) : RouteResult × Caps :=
  (routeEscalation ra t caps now, caps)

/-- `EscalationRouter.update_team_load` (separate public method, not
called by `route_escalation`): adds `load_change` to a known team's
load, floored at 0; unknown teams are ignored. -/
def updateTeamLoad (caps : Caps) (team : String) (load_change : ℤ) : Caps :=
  match List.lookup team caps with
  | none => caps
  | some info => capsSet caps team ⟨info.max_active, max 0 (info.current_load + load_change)⟩

/-! ## AlertManagerAgent (`src/app/agents/alert_manager.py`)

Times are in minutes (`ALERT_COOLDOWN_MINUTES` is a count of minutes);
`now` is the current clock, `_alert_cooldown` maps a dedup key to its
expiry instant. -/

/-- Fields of `sentiment_result` read by `check_alerts`
(`anger_score`/`frustration_score` default to 0 via `.get`). -/
structure AlertSignal where
  overall_sentiment : ℚ
  anger_score : ℚ
  frustration_score : ℚ
  deriving DecidableEq

/-- The `_alert_cooldown` dict. -/
abbrev CooldownMap := List (String × ℚ)

/-- Dict assignment `self._alert_cooldown[key] = v`. -/
def cooldownSet (cd : CooldownMap) (key : String) (v : ℚ) : CooldownMap :=
  if (List.lookup key cd).isSome then
    cd.map (fun p => if p.1 = key then (p.1, v) else p)
  else cd ++ [(key, v)]

/-- `cooldown_key = f"{ticket_data.channel}_{ticket_data.source}"`. -/
def cooldownKey (t : Ticket) : String :=
  t.channel ++ "_" ++ t.source

/-- `AlertManagerAgent._is_in_cooldown`. -/
def isInCooldown (cd : CooldownMap) (key : String) (now : ℚ) : Bool :=
  match List.lookup key cd with
  | none => false
  | some expiry => decide (now < expiry)

/-- `AlertManagerAgent._update_cooldown`: entry expires at
`now + cooldown_duration`. -/
def updateCooldown (cd : CooldownMap) (key : String) (now cooldown_minutes : ℚ) :
    CooldownMap :=
  cooldownSet cd key (now + cooldown_minutes)

/-- `AlertManagerAgent._should_trigger_alert`; `threshold` is
`settings.SENTIMENT_THRESHOLD`. -/
def shouldTriggerAlert (s : AlertSignal) (t : Ticket) (threshold : ℚ) : Bool :=
  decide (s.overall_sentiment < -threshold)
  || (decide (s.anger_score > 0.5) || decide (s.frustration_score > 0.5))
  || (t.priority = "high" || t.priority = "urgent")

/-- `AlertManagerAgent._determine_severity`. -/
def determineSeverity (s : AlertSignal) (t : Ticket) : String :=
  let sentiment_score := |s.overall_sentiment|
  if sentiment_score > 0.7 ∨ s.anger_score > 0.7 ∨ t.priority = "urgent" then
    "critical"
  else if sentiment_score > 0.5 ∨ s.anger_score > 0.5 ∨ s.frustration_score > 0.5
      ∨ t.priority = "high" then
    "high"
  else if sentiment_score > 0.3 then "medium"
  else "low"

/-- Decision part of the `check_alerts` return value (the notification
title/message/recommendation strings and echo fields are formatting of
the same inputs and are omitted; `reason` and `severity` are present
exactly in the branches that set them in the source). -/
structure AlertDecision where
  should_alert : Bool
  reason : Option String
  severity : Option String
  deriving DecidableEq

/-- `AlertManagerAgent.check_alerts` as a transition on the
`_alert_cooldown` state (Slack delivery is external transport and only
affects the `sent_to_slack` echo field). -/
def checkAlerts (s : AlertSignal) (t : Ticket) (cd : CooldownMap)
    (now threshold cooldown_minutes : ℚ) : AlertDecision × CooldownMap :=
  if ¬ shouldTriggerAlert s t threshold then
    ({ should_alert := false, reason := some "No alert conditions met"
       severity := none }, cd)
  else if isInCooldown cd (cooldownKey t) now then
    ({ should_alert := false, reason := some "Alert in cooldown period"
       severity := none }, cd)
  else
    ({ should_alert := true, reason := none
       severity := some (determineSeverity s t) },
     updateCooldown cd (cooldownKey t) now cooldown_minutes)

/-! ## TrendAnalyzerAgent (`src/app/agents/trend_analyzer.py`)

Times are in hours; `now` is the current clock. -/

/-- One `trend_data` snapshot appended by `update_trends`. -/
structure Snapshot where
  timestamp : ℚ
  sentiment_score : ℚ
  positive_score : ℚ
  negative_score : ℚ
  neutral_score : ℚ
  anger_score : ℚ
  frustration_score : ℚ
  ticket_priority : String
  deriving DecidableEq

/-- Placeholder snapshot for total `head`/`getLast` access in statements
(the source only indexes nonempty lists). -/
def defaultSnapshot : Snapshot :=
  ⟨0, 0, 0, 0, 0, 0, 0, "low"⟩

/-- `update_trends` on one key's list: append, then keep only the last
24 hours. -/
def updateTrendsForKey (data : List Snapshot) (snap : Snapshot) (now : ℚ) :
    List Snapshot :=
  (data ++ [snap]).filter (fun d => d.timestamp > now - 24)

/-- Metrics dict of `TrendAnalyzerAgent._calculate_trend_metrics`
(the `time_range` echo of first/last timestamps is omitted). -/
structure TrendMetrics where
  total_tickets : ℕ
  avg_sentiment : ℚ
  avg_positive_score : ℚ
  avg_negative_score : ℚ
  avg_neutral_score : ℚ
  avg_anger_score : ℚ
  avg_frustration_score : ℚ
  sentiment_change : ℚ
  trend_direction : String
  negative_count : ℕ
  positive_count : ℕ
  neutral_count : ℕ
  negative_percentage : ℚ
  positive_percentage : ℚ
  neutral_percentage : ℚ
  deriving DecidableEq

/-- `TrendAnalyzerAgent._calculate_trend_metrics` (returns `{}` on an
empty list, modelled as `none`). -/
def calculateTrendMetrics (data : List Snapshot) : Option TrendMetrics :=
  match data with
  | [] => none
  | first :: rest =>
    let n : ℚ := ((first :: rest).length : ℚ)
    let last := (first :: rest).getLast (by simp)
    let sentiment_change : ℚ :=
      if 2 ≤ (first :: rest).length then
        last.sentiment_score - first.sentiment_score
      else 0
    let trend_direction : String :=
      if 2 ≤ (first :: rest).length then
        if sentiment_change > 0.1 then "improving"
        else if sentiment_change < -0.1 then "declining"
        else "stable"
      else "stable"
    let negative_count := ((first :: rest).filter
      (fun d => decide (d.sentiment_score < -0.1))).length
    let positive_count := ((first :: rest).filter
      (fun d => decide (d.sentiment_score > 0.1))).length
    let neutral_count := ((first :: rest).filter
      (fun d => decide (-0.1 ≤ d.sentiment_score ∧ d.sentiment_score ≤ 0.1))).length
    some
      { total_tickets := (first :: rest).length
        avg_sentiment := ((first :: rest).map Snapshot.sentiment_score).sum / n
        avg_positive_score := ((first :: rest).map Snapshot.positive_score).sum / n
        avg_negative_score := ((first :: rest).map Snapshot.negative_score).sum / n
        avg_neutral_score := ((first :: rest).map Snapshot.neutral_score).sum / n
        avg_anger_score := ((first :: rest).map Snapshot.anger_score).sum / n
        avg_frustration_score := ((first :: rest).map Snapshot.frustration_score).sum / n
        sentiment_change := sentiment_change
        trend_direction := trend_direction
        negative_count := negative_count
        positive_count := positive_count
        neutral_count := neutral_count
        negative_percentage := (negative_count : ℚ) / n * 100
        positive_percentage := (positive_count : ℚ) / n * 100
        neutral_percentage := (neutral_count : ℚ) / n * 100 }

/-- Window length in hours for `get_trends`' `time_period` argument
(`"1h"`, `"6h"`, `"24h"`, default 1 hour). -/
def periodHours (time_period : String) : ℚ :=
  if time_period = "1h" then 1
  else if time_period = "6h" then 6
  else if time_period = "24h" then 24
  else 1

/-- `get_trends` restricted to one key: filter the stored list to the
period window; an empty filtered window omits the key (`none`). -/
def getTrendsForKey (data : List Snapshot) (now : ℚ) (time_period : String) :
    Option TrendMetrics :=
  let cutoff := now - periodHours time_period
  let recent := data.filter (fun d => d.timestamp > cutoff)
  if recent.isEmpty then none
  else calculateTrendMetrics recent

/-! ## Helper lemmas -/

theorem pymin_one_nonneg {x : ℚ} (h : 0 ≤ x) : 0 ≤ pymin 1 x := by
  unfold pymin
  split_ifs with h1
  · norm_num
  · exact h

theorem pymin_one_le_one (x : ℚ) : pymin 1 x ≤ 1 := by
  unfold pymin
  split_ifs with h1
  · exact le_refl 1
  · exact (not_le.mp h1).le

theorem calculateChurnRisk_nonneg (text : String) (sentiment : ℚ)
    (emotions : List (String × ℚ)) : 0 ≤ calculateChurnRisk text sentiment emotions := by
  simp only [calculateChurnRisk]
  apply pymin_one_nonneg
  split_ifs <;> positivity

theorem urgencyWeight_nonneg (u : String) : 0 ≤ urgencyWeight u := by
  unfold urgencyWeight
  split_ifs <;> norm_num

theorem calculateEscalationRisk_nonneg (text : String) (u : String)
    (emotions : List (String × ℚ)) : 0 ≤ calculateEscalationRisk text u emotions := by
  simp only [calculateEscalationRisk]
  apply pymin_one_nonneg
  have hu := urgencyWeight_nonneg u
  split_ifs <;> positivity

theorem tierWeight_nonneg (tier : String) : 0 ≤ tierWeight tier := by
  unfold tierWeight
  split_ifs <;> norm_num

theorem calculateBusinessImpact_nonneg (t : Ticket) (churn_risk : ℚ) (now : ℚ)
    (hc : 0 ≤ churn_risk) : 0 ≤ calculateBusinessImpact t churn_risk now := by
  simp only [calculateBusinessImpact]
  apply pymin_one_nonneg
  have h1 : 0 ≤ tierWeight t.customer_tier * churn_risk :=
    mul_nonneg (tierWeight_nonneg _) hc
  have h2 : (0:ℚ) ≤ if t.account_value > 10000 then (0.2:ℚ)
      else if t.account_value > 1000 then 0.1 else 0 := by
    split_ifs <;> norm_num
  have h3 : (0:ℚ) ≤ (match t.customer_since with
      | none => (0:ℚ)
      | some since => if ((⌊now - since⌋ : ℚ) / 365) > 2 then 0.1 else 0) := by
    cases t.customer_since with
    | none => norm_num
    | some since =>
        dsimp only
        split_ifs <;> norm_num
  linarith

theorem calculateResponseUrgency_nonneg (escalation_risk : ℚ) (u : String)
    (he : 0 ≤ escalation_risk) : 0 ≤ calculateResponseUrgency escalation_risk u := by
  simp only [calculateResponseUrgency]
  apply pymin_one_nonneg
  have hu := urgencyWeight_nonneg u
  linarith

theorem calculateOverallRisk_nonneg {a b c d : ℚ} (ha : 0 ≤ a) (hb : 0 ≤ b)
    (hc : 0 ≤ c) (hd : 0 ≤ d) : 0 ≤ calculateOverallRisk a b c d := by
  simp only [calculateOverallRisk]
  apply pymin_one_nonneg
  linarith

/-! ## Claims -/

/-- C1: for every sentiment signal and ticket (any text, sentiment,
emotion map, tier and account value), the four sub-scores
`churnRisk, escalationRisk, businessImpact, responseUrgency` of
`RiskAssessor.assess_risk` lie in `[0,1]`, and `overallRisk` lies in
`[0,1]`. -/
theorem assess_risk_scores_within_unit_interval (s : SentimentInput) (t : Ticket)
    (now : ℚ) :
    (0 ≤ (assessRisk s t now).risk_factors.churn_risk ∧
      (assessRisk s t now).risk_factors.churn_risk ≤ 1) ∧
    (0 ≤ (assessRisk s t now).risk_factors.escalation_risk ∧
      (assessRisk s t now).risk_factors.escalation_risk ≤ 1) ∧
    (0 ≤ (assessRisk s t now).risk_factors.business_impact ∧
      (assessRisk s t now).risk_factors.business_impact ≤ 1) ∧
    (0 ≤ (assessRisk s t now).risk_factors.response_urgency ∧
      (assessRisk s t now).risk_factors.response_urgency ≤ 1) ∧
    (0 ≤ (assessRisk s t now).overall_risk ∧
      (assessRisk s t now).overall_risk ≤ 1) := by
  simp only [assessRisk]
  have hc := calculateChurnRisk_nonneg (lowerStr s.text) s.overall_sentiment s.emotions
  have he := calculateEscalationRisk_nonneg (lowerStr s.text) s.urgency_level s.emotions
  have hb := calculateBusinessImpact_nonneg t _ now hc
  have hr := calculateResponseUrgency_nonneg _ s.urgency_level he
  refine ⟨⟨hc, ?_⟩, ⟨he, ?_⟩, ⟨hb, ?_⟩, ⟨hr, ?_⟩,
    calculateOverallRisk_nonneg hc he hb hr, ?_⟩
  · simp only [calculateChurnRisk]; exact pymin_one_le_one _
  · simp only [calculateEscalationRisk]; exact pymin_one_le_one _
  · simp only [calculateBusinessImpact]; exact pymin_one_le_one _
  · simp only [calculateResponseUrgency]; exact pymin_one_le_one _
  · simp only [calculateOverallRisk]; exact pymin_one_le_one _

/-- C5 counterexample: at the input the claim describes — overall
sentiment −0.8, anger 0.8, ticket priority `"urgent"`, all remaining
fields defaulted (empty text, `urgency_level="low"`, standard tier, zero
account value, no tenure) — `assess_risk` returns
`risk_level = "low"`, not `"critical"` (overall risk 857/2000 ≈ 0.43;
the ticket's `priority` field is never read by the risk scoring). -/
theorem urgent_angry_input_scores_low :
    (⟨"email", "support", "urgent", "standard", 0, none, false, ""⟩ : Ticket).priority
        = "urgent" ∧
    (assessRisk ⟨"", -0.8, [("anger", 0.8)], "low"⟩
        ⟨"email", "support", "urgent", "standard", 0, none, false, ""⟩ 0).overall_risk
        = 857/2000 ∧
    (assessRisk ⟨"", -0.8, [("anger", 0.8)], "low"⟩
        ⟨"email", "support", "urgent", "standard", 0, none, false, ""⟩ 0).risk_level
        = "low" ∧
    (assessRisk ⟨"", -0.8, [("anger", 0.8)], "low"⟩
        ⟨"email", "support", "urgent", "standard", 0, none, false, ""⟩ 0).risk_level
        ≠ "critical" := by
  refine ⟨rfl, ?_, ?_, ?_⟩ <;>
    norm_num +decide [assessRisk, calculateChurnRisk, calculateEscalationRisk,
      calculateBusinessImpact, calculateResponseUrgency, calculateOverallRisk,
      getRiskLevel, pymin, urgencyWeight, tierWeight, emoGet,
      assessEmotionalIntensity, maxEmotionValue, findChurnIndicators,
      findEscalationIndicators, strContains, containsSubAux, churnIndicators,
      escalationIndicators, lowerStr]

/-- C5 amended: at sentiment −0.8, anger 0.8 and urgent ticket priority
with the remaining fields defaulted, `assess_risk` returns
`risk_level = "low"`; even reading the urgent priority as
`urgency_level = "high"` yields only `"medium"` (overall risk
1199/2000 ≈ 0.60). The claimed `"critical"` (threshold 0.9) is not
reached. -/
theorem urgent_angry_input_risk_levels :
    (assessRisk ⟨"", -0.8, [("anger", 0.8)], "low"⟩
        ⟨"email", "support", "urgent", "standard", 0, none, false, ""⟩ 0).risk_level
        = "low" ∧
    (assessRisk ⟨"", -0.8, [("anger", 0.8)], "high"⟩
        ⟨"email", "support", "urgent", "standard", 0, none, false, ""⟩ 0).risk_level
        = "medium" := by
  constructor <;>
    norm_num +decide [assessRisk, calculateChurnRisk, calculateEscalationRisk,
      calculateBusinessImpact, calculateResponseUrgency, calculateOverallRisk,
      getRiskLevel, pymin, urgencyWeight, tierWeight, emoGet,
      assessEmotionalIntensity, maxEmotionValue, findChurnIndicators,
      findEscalationIndicators, strContains, containsSubAux, churnIndicators,
      escalationIndicators, lowerStr]

/-- C7 counterexample: the fallback returned when `assess_risk` catches
an exception has `risk_level = "unknown"`, not `"medium"` as the claim
states. -/
theorem assess_risk_error_level_is_unknown :
    (assessRiskOnError "boom").risk_level = "unknown" ∧
    (assessRiskOnError "boom").risk_level ≠ "medium" := by
  exact ⟨rfl, by decide⟩

/-- C7 amended: when scoring raises, `assess_risk` returns the safe
default `overall_risk = 0.5` with `risk_level = "unknown"` (not
`"medium"`) instead of dropping the ticket or propagating the error. -/
theorem assess_risk_error_safe_default (e : String) (s : SentimentInput)
    (t : Ticket) (now : ℚ) :
    assessRiskRun (some e) s t now = Sum.inr (assessRiskOnError e) ∧
    (assessRiskOnError e).overall_risk = 0.5 ∧
    (assessRiskOnError e).risk_level = "unknown" := by
  exact ⟨rfl, rfl, rfl⟩

/-- C6 counterexample: two runs of `assess_risk` on identical signal,
ticket and configuration, differing only in the current clock (day 700
vs day 800, with the customer's `customer_since` at day 0), produce
different `RiskAssessment`s: the business-impact sub-score is 0 in the
first run and 1/10 in the second, because the scoring reads
`datetime.now()` to compute customer tenure. -/
theorem assess_risk_depends_on_clock :
    (assessRisk ⟨"", 0, [], "low"⟩
        ⟨"email", "support", "normal", "standard", 0, some 0, false, ""⟩
        700).risk_factors.business_impact = 0 ∧
    (assessRisk ⟨"", 0, [], "low"⟩
        ⟨"email", "support", "normal", "standard", 0, some 0, false, ""⟩
        800).risk_factors.business_impact = 1/10 ∧
    assessRisk ⟨"", 0, [], "low"⟩
        ⟨"email", "support", "normal", "standard", 0, some 0, false, ""⟩ 700 ≠
      assessRisk ⟨"", 0, [], "low"⟩
        ⟨"email", "support", "normal", "standard", 0, some 0, false, ""⟩ 800 := by
  have h1 : (assessRisk ⟨"", 0, [], "low"⟩
      ⟨"email", "support", "normal", "standard", 0, some 0, false, ""⟩
      700).risk_factors.business_impact = 0 := by
    norm_num +decide [assessRisk, calculateChurnRisk, calculateEscalationRisk,
      calculateBusinessImpact, calculateResponseUrgency, calculateOverallRisk,
      getRiskLevel, pymin, urgencyWeight, tierWeight, emoGet,
      assessEmotionalIntensity, maxEmotionValue, findChurnIndicators,
      findEscalationIndicators, strContains, containsSubAux, churnIndicators,
      escalationIndicators, lowerStr]
  have h2 : (assessRisk ⟨"", 0, [], "low"⟩
      ⟨"email", "support", "normal", "standard", 0, some 0, false, ""⟩
      800).risk_factors.business_impact = 1/10 := by
    norm_num +decide [assessRisk, calculateChurnRisk, calculateEscalationRisk,
      calculateBusinessImpact, calculateResponseUrgency, calculateOverallRisk,
      getRiskLevel, pymin, urgencyWeight, tierWeight, emoGet,
      assessEmotionalIntensity, maxEmotionValue, findChurnIndicators,
      findEscalationIndicators, strContains, containsSubAux, churnIndicators,
      escalationIndicators, lowerStr]
  refine ⟨h1, h2, fun h => ?_⟩
  have hb := congrArg (fun r => r.risk_factors.business_impact) h
  dsimp only at hb
  rw [h1, h2] at hb
  norm_num at hb

/-- C6 amended: the scoring is deterministic once the current clock is
fixed — and fully time-independent exactly when the ticket carries no
`customer_since` date: with `customer_since = none`, `assess_risk` and
`route_escalation` give identical results at any two clock values.
(The only clock reads are the tenure computations in
`_calculate_business_impact` and `_determine_routing_details`.) -/
theorem scoring_time_independent_without_tenure (s : SentimentInput) (t : Ticket)
    (ra : RiskAssessmentIn) (caps : Caps) (now1 now2 : ℚ)
    (h : t.customer_since = none) :
    assessRisk s t now1 = assessRisk s t now2 ∧
    routeEscalation ra t caps now1 = routeEscalation ra t caps now2 := by
  constructor
  · simp only [assessRisk, calculateBusinessImpact, h]
  · simp only [routeEscalation, determineRoutingDetails, h]

/-- C6 witness: concrete instance of the amended determinism theorem at
clock values 0 and 1000 for a ticket without `customer_since`. -/
theorem scoring_time_independent_without_tenure_witness :
    assessRisk ⟨"", 0, [], "low"⟩
        ⟨"email", "support", "normal", "standard", 0, none, false, ""⟩ 0 =
      assessRisk ⟨"", 0, [], "low"⟩
        ⟨"email", "support", "normal", "standard", 0, none, false, ""⟩ 1000 ∧
    routeEscalation ⟨"low", 0, 0, 0⟩
        ⟨"email", "support", "normal", "standard", 0, none, false, ""⟩
        initialCaps 0 =
      routeEscalation ⟨"low", 0, 0, 0⟩
        ⟨"email", "support", "normal", "standard", 0, none, false, ""⟩
        initialCaps 1000 :=
  scoring_time_independent_without_tenure _ _ _ _ 0 1000 rfl

/-- C4 counterexample: a VIP ticket whose computed risk level is `"low"`
is routed entirely at the `"low"` level — `escalation_level = "low"`,
assigned team `standard_support` (not the critical level's
`crisis_response`) — while the VIP override is only reported in the
separate `priority_override` field (`new_priority = "critical"`); the
override never changes the routed level, team or path. -/
theorem vip_ticket_routed_at_computed_level :
    (⟨"email", "support", "normal", "standard", 0, none, true, ""⟩ : Ticket).is_vip
        = true ∧
    (routeEscalation ⟨"low", 1/10, 0, 0⟩
        ⟨"email", "support", "normal", "standard", 0, none, true, ""⟩
        initialCaps 0).priority_override.new_priority = some "critical" ∧
    (routeEscalation ⟨"low", 1/10, 0, 0⟩
        ⟨"email", "support", "normal", "standard", 0, none, true, ""⟩
        initialCaps 0).escalation_level = "low" ∧
    (routeEscalation ⟨"low", 1/10, 0, 0⟩
        ⟨"email", "support", "normal", "standard", 0, none, true, ""⟩
        initialCaps 0).escalation_plan.assigned_team = "standard_support" ∧
    (routeEscalation ⟨"low", 1/10, 0, 0⟩
        ⟨"email", "support", "normal", "standard", 0, none, true, ""⟩
        initialCaps 0).escalation_level ≠ "critical" ∧
    (routeEscalation ⟨"low", 1/10, 0, 0⟩
        ⟨"email", "support", "normal", "standard", 0, none, true, ""⟩
        initialCaps 0).escalation_plan.assigned_team ≠ "crisis_response" := by
  refine ⟨rfl, ?_, rfl, ?_, by decide, ?_⟩ <;>
    norm_num +decide [routeEscalation, escalationPathFor, lowPath,
      determineRoutingDetails, accelerateResponseTime, checkTeamAvailability,
      capGet, initialCaps, getBackupTeam, generateEscalationPlan,
      checkPriorityOverride, legalKeywords, socialKeywords, strContains,
      containsSubAux, lowerStr, List.lookup]

/-- C4 amended: for a VIP ticket (when no social-media keyword in the
content later overwrites the override), `route_escalation` reports
`priority_override = {should_override: true, new_priority: "critical"}`
— but the routed `escalation_level` remains the computed risk level;
the override is informational and does not re-route to the critical
path. -/
theorem vip_override_reported_not_applied (ra : RiskAssessmentIn) (t : Ticket)
    (caps : Caps) (now : ℚ) (hv : t.is_vip = true)
    (hs : socialKeywords.any (fun kw => strContains (lowerStr t.content) kw) = false) :
    (routeEscalation ra t caps now).priority_override.should_override = true ∧
    (routeEscalation ra t caps now).priority_override.new_priority = some "critical" ∧
    (routeEscalation ra t caps now).escalation_level = ra.risk_level := by
  have hp : (routeEscalation ra t caps now).priority_override
      = checkPriorityOverride t ra.risk_level := rfl
  refine ⟨?_, ?_, rfl⟩ <;>
  · rw [hp]
    simp only [checkPriorityOverride, hv, hs, if_true, Bool.false_eq_true, if_false]
    split_ifs <;> rfl

/-- C4 witness: concrete instance of the amended VIP-override theorem. -/
theorem vip_override_reported_not_applied_witness :
    (routeEscalation ⟨"low", 0, 0, 0⟩
        ⟨"email", "support", "normal", "standard", 0, none, true, ""⟩
        initialCaps 0).priority_override.new_priority = some "critical" ∧
    (routeEscalation ⟨"low", 0, 0, 0⟩
        ⟨"email", "support", "normal", "standard", 0, none, true, ""⟩
        initialCaps 0).escalation_level = "low" := by
  have h := vip_override_reported_not_applied ⟨"low", 0, 0, 0⟩
    ⟨"email", "support", "normal", "standard", 0, none, true, ""⟩
    initialCaps 0 rfl (by decide)
  exact ⟨h.2.1, h.2.2⟩

/-- C3 counterexample: with every team saturated (`crisis_response` 5/5,
`senior_support` 15/15, `tier_2_support` 30/30, `standard_support`
100/100), routing a critical-level request resolves the primary team
`crisis_response` and assigns its backup `senior_support` after a single
hop, even though that backup — and the next two teams in the backup
chain (`tier_2_support`, `standard_support`) — are saturated too. The
returned plan carries no `unresolved` outcome; the backup's capacity is
never checked. -/
theorem saturated_chain_still_assigns_first_backup :
    (routeEscalation ⟨"critical", 1, 0, 0⟩
        ⟨"email", "support", "normal", "standard", 0, none, false, ""⟩
        [("crisis_response", ⟨5, 5⟩), ("senior_support", ⟨15, 15⟩),
         ("tier_2_support", ⟨30, 30⟩), ("standard_support", ⟨100, 100⟩)]
        0).routing_details.assigned_team = "crisis_response" ∧
    (routeEscalation ⟨"critical", 1, 0, 0⟩
        ⟨"email", "support", "normal", "standard", 0, none, false, ""⟩
        [("crisis_response", ⟨5, 5⟩), ("senior_support", ⟨15, 15⟩),
         ("tier_2_support", ⟨30, 30⟩), ("standard_support", ⟨100, 100⟩)]
        0).escalation_plan.assigned_team = "senior_support" ∧
    (capGet [("crisis_response", ⟨5, 5⟩), ("senior_support", ⟨15, 15⟩),
         ("tier_2_support", ⟨30, 30⟩), ("standard_support", ⟨100, 100⟩)]
        (getBackupTeam "crisis_response")).current_load =
      (capGet [("crisis_response", ⟨5, 5⟩), ("senior_support", ⟨15, 15⟩),
         ("tier_2_support", ⟨30, 30⟩), ("standard_support", ⟨100, 100⟩)]
        (getBackupTeam "crisis_response")).max_active ∧
    (capGet [("crisis_response", ⟨5, 5⟩), ("senior_support", ⟨15, 15⟩),
         ("tier_2_support", ⟨30, 30⟩), ("standard_support", ⟨100, 100⟩)]
        (getBackupTeam (getBackupTeam "crisis_response"))).current_load =
      (capGet [("crisis_response", ⟨5, 5⟩), ("senior_support", ⟨15, 15⟩),
         ("tier_2_support", ⟨30, 30⟩), ("standard_support", ⟨100, 100⟩)]
        (getBackupTeam (getBackupTeam "crisis_response"))).max_active ∧
    (capGet [("crisis_response", ⟨5, 5⟩), ("senior_support", ⟨15, 15⟩),
         ("tier_2_support", ⟨30, 30⟩), ("standard_support", ⟨100, 100⟩)]
        (getBackupTeam (getBackupTeam (getBackupTeam "crisis_response")))).current_load =
      (capGet [("crisis_response", ⟨5, 5⟩), ("senior_support", ⟨15, 15⟩),
         ("tier_2_support", ⟨30, 30⟩), ("standard_support", ⟨100, 100⟩)]
        (getBackupTeam (getBackupTeam (getBackupTeam "crisis_response")))).max_active := by
  refine ⟨?_, ?_, by decide, by decide, by decide⟩ <;>
    norm_num +decide [routeEscalation, escalationPathFor, lowPath,
      determineRoutingDetails, accelerateResponseTime, checkTeamAvailability,
      capGet, getBackupTeam, generateEscalationPlan, checkPriorityOverride,
      legalKeywords, socialKeywords, strContains, containsSubAux, lowerStr,
      List.lookup]

/-- C3 amended: when the team resolved by `_determine_routing_details`
has `currentLoad` equal to `maxConcurrent`, `route_escalation` assigns
the configured backup team and marks the plan (escalation reason
`team_at_capacity` and a routing note). The source performs exactly one
backup hop: it never checks the backup's capacity, and no `unresolved`
outcome exists — with all chain teams saturated the plan still names the
(saturated) first backup. -/
theorem saturated_team_assigned_single_backup (ra : RiskAssessmentIn) (t : Ticket)
    (caps : Caps) (now : ℚ)
    (h : (capGet caps (routeEscalation ra t caps now).routing_details.assigned_team).current_load
        = (capGet caps (routeEscalation ra t caps now).routing_details.assigned_team).max_active) :
    (routeEscalation ra t caps now).escalation_plan.assigned_team
      = getBackupTeam (routeEscalation ra t caps now).routing_details.assigned_team ∧
    (routeEscalation ra t caps now).team_availability.escalation_reason
      = some "team_at_capacity" ∧
    (routeEscalation ra t caps now).escalation_plan.escalation_notes.head?
      = some ("Primary team " ++ (routeEscalation ra t caps now).routing_details.assigned_team
          ++ " at capacity, routing to "
          ++ getBackupTeam (routeEscalation ra t caps now).routing_details.assigned_team) := by
  simp only [routeEscalation] at h ⊢
  generalize determineRoutingDetails ra.risk_level ra.priority_score t
    (escalationPathFor ra.risk_level) now = rd at h ⊢
  have hncap : decide ((capGet caps rd.assigned_team).current_load
      < (capGet caps rd.assigned_team).max_active) = false := by
    rw [h]
    simp
  refine ⟨?_, ?_, ?_⟩ <;>
    simp [checkTeamAvailability, generateEscalationPlan, hncap]

/-- C3 witness: concrete instance of the amended single-backup theorem —
`crisis_response` saturated at 5/5, the plan reassigns to
`senior_support` with the capacity reason recorded. -/
theorem saturated_team_assigned_single_backup_witness :
    (routeEscalation ⟨"critical", 1, 0, 0⟩
        ⟨"email", "support", "normal", "standard", 0, none, false, ""⟩
        [("crisis_response", ⟨5, 5⟩), ("senior_support", ⟨15, 15⟩),
         ("tier_2_support", ⟨30, 30⟩), ("standard_support", ⟨100, 100⟩)]
        0).escalation_plan.assigned_team
      = getBackupTeam (routeEscalation ⟨"critical", 1, 0, 0⟩
        ⟨"email", "support", "normal", "standard", 0, none, false, ""⟩
        [("crisis_response", ⟨5, 5⟩), ("senior_support", ⟨15, 15⟩),
         ("tier_2_support", ⟨30, 30⟩), ("standard_support", ⟨100, 100⟩)]
        0).routing_details.assigned_team ∧
    (routeEscalation ⟨"critical", 1, 0, 0⟩
        ⟨"email", "support", "normal", "standard", 0, none, false, ""⟩
        [("crisis_response", ⟨5, 5⟩), ("senior_support", ⟨15, 15⟩),
         ("tier_2_support", ⟨30, 30⟩), ("standard_support", ⟨100, 100⟩)]
        0).team_availability.escalation_reason = some "team_at_capacity" := by
  have h := saturated_team_assigned_single_backup ⟨"critical", 1, 0, 0⟩
    ⟨"email", "support", "normal", "standard", 0, none, false, ""⟩
    [("crisis_response", ⟨5, 5⟩), ("senior_support", ⟨15, 15⟩),
     ("tier_2_support", ⟨30, 30⟩), ("standard_support", ⟨100, 100⟩)] 0
    (by norm_num +decide [routeEscalation, escalationPathFor, lowPath,
      determineRoutingDetails, accelerateResponseTime, capGet, List.lookup])
  exact ⟨h.1, h.2.1⟩

/-- Dict lookup after in-place update: updating key `team` makes
`lookup team` return the new value, provided the key was present. -/
theorem lookup_capsSet (caps : Caps) (team : String) (v : TeamCap)
    (h : (List.lookup team caps).isSome) :
    List.lookup team (capsSet caps team v) = some v := by
  induction caps with
  | nil => simp [List.lookup] at h
  | cons p rest ih =>
    rcases p with ⟨k, w⟩
    by_cases hk : k = team
    · subst hk
      simp only [capsSet, List.map_cons]
      simp only [if_true]
      simp [List.lookup]
    · have hne : (team == k) = false := by
        simp only [beq_eq_false_iff_ne, ne_eq]
        exact fun hh => hk hh.symm
      simp only [List.lookup, hne] at h
      simp only [capsSet, List.map_cons]
      rw [if_neg hk]
      simp only [List.lookup, hne]
      exact ih h

/-- C9 counterexample: a successful routing call leaves the
`team_capacities` state untouched — with the initial table, routing a
low-risk ticket names `standard_support` in the plan, yet that team's
`currentLoad` after the call is still 0, not incremented by one. -/
theorem route_escalation_does_not_increment_load :
    (routeEscalationCall ⟨"low", 0, 0, 0⟩
        ⟨"email", "support", "normal", "standard", 0, none, false, ""⟩
        initialCaps 0).2 = initialCaps ∧
    (routeEscalationCall ⟨"low", 0, 0, 0⟩
        ⟨"email", "support", "normal", "standard", 0, none, false, ""⟩
        initialCaps 0).1.escalation_plan.assigned_team = "standard_support" ∧
    (capGet (routeEscalationCall ⟨"low", 0, 0, 0⟩
        ⟨"email", "support", "normal", "standard", 0, none, false, ""⟩
        initialCaps 0).2 "standard_support").current_load = 0 ∧
    (capGet (routeEscalationCall ⟨"low", 0, 0, 0⟩
        ⟨"email", "support", "normal", "standard", 0, none, false, ""⟩
        initialCaps 0).2 "standard_support").current_load ≠
      (capGet initialCaps "standard_support").current_load + 1 := by
  refine ⟨rfl, ?_, by decide, by decide⟩
  norm_num +decide [routeEscalationCall, routeEscalation, escalationPathFor,
    lowPath, determineRoutingDetails, accelerateResponseTime,
    checkTeamAvailability, capGet, initialCaps, getBackupTeam,
    generateEscalationPlan, checkPriorityOverride, legalKeywords,
    socialKeywords, strContains, containsSubAux, lowerStr, List.lookup]

/-- C9 amended: `route_escalation` never modifies any team's
`currentLoad` (the post-state equals the pre-state for every call);
load bookkeeping is left to the caller through the separate
`update_team_load` method, which adds the given delta to a known team's
load, floored at 0. -/
theorem routing_pure_loads_updated_by_caller :
    (∀ (ra : RiskAssessmentIn) (t : Ticket) (caps : Caps) (now : ℚ),
      (routeEscalationCall ra t caps now).2 = caps) ∧
    (∀ (caps : Caps) (team : String) (c : ℤ) (info : TeamCap),
      List.lookup team caps = some info →
      List.lookup team (updateTeamLoad caps team c)
        = some ⟨info.max_active, max 0 (info.current_load + c)⟩) := by
  constructor
  · intro ra t caps now
    rfl
  · intro caps team c info hl
    simp only [updateTeamLoad, hl]
    exact lookup_capsSet caps team _ (by rw [hl]; rfl)

/-- C9 witness: routing with the initial table returns it unchanged, and
a caller-side `update_team_load(+1)` on `crisis_response` moves its load
from 0 to 1. -/
theorem routing_pure_loads_updated_by_caller_witness :
    (routeEscalationCall ⟨"low", 0, 0, 0⟩
        ⟨"email", "support", "normal", "standard", 0, none, false, ""⟩
        initialCaps 0).2 = initialCaps ∧
    List.lookup "crisis_response" (updateTeamLoad initialCaps "crisis_response" 1)
      = some ⟨5, 1⟩ := by
  refine ⟨routing_pure_loads_updated_by_caller.1 _ _ _ _, ?_⟩
  have h := routing_pure_loads_updated_by_caller.2 initialCaps "crisis_response" 1
    ⟨5, 0⟩ rfl
  simpa using h

/-- Updating a key present in the map makes `lookup` return the new
value. -/
theorem lookup_update_present {β : Type} (l : List (String × β)) (key : String)
    (v : β) (h : (List.lookup key l).isSome) :
    List.lookup key (l.map (fun p => if p.1 = key then (p.1, v) else p)) = some v := by
  induction l with
  | nil => simp [List.lookup] at h
  | cons p rest ih =>
    rcases p with ⟨k, w⟩
    by_cases hk : k = key
    · subst hk
      simp only [List.map_cons]
      simp only [if_true]
      simp [List.lookup]
    · have hne : (key == k) = false := by
        simp only [beq_eq_false_iff_ne, ne_eq]
        exact fun hh => hk hh.symm
      simp only [List.lookup, hne] at h
      simp only [List.map_cons]
      rw [if_neg hk]
      simp only [List.lookup, hne]
      exact ih h

/-- Appending a fresh key at the back makes `lookup` find it. -/
theorem lookup_append_absent {β : Type} (l : List (String × β)) (key : String)
    (v : β) (h : List.lookup key l = none) :
    List.lookup key (l ++ [(key, v)]) = some v := by
  induction l with
  | nil => simp [List.lookup]
  | cons p rest ih =>
    rcases p with ⟨k, w⟩
    by_cases hk : key = k
    · simp [List.lookup, hk] at h
    · have hne : (key == k) = false := by
        simp only [beq_eq_false_iff_ne, ne_eq]
        exact hk
      simp only [List.lookup, hne] at h
      simp only [List.cons_append, List.lookup, hne]
      exact ih h

/-- Dict assignment then lookup on the same key returns the assigned
value, whether the key was present or not. -/
theorem lookup_cooldownSet (cd : CooldownMap) (key : String) (v : ℚ) :
    List.lookup key (cooldownSet cd key v) = some v := by
  unfold cooldownSet
  split_ifs with hmem
  · exact lookup_update_present cd key v hmem
  · exact lookup_append_absent cd key v (Option.not_isSome_iff_eq_none.mp hmem)

/-- C2: if a first `check_alerts` call for a key fires an alert at time
`n1`, then any second alert-eligible call for the same `(channel,
source)` key at a time `n2` before the cooldown expiry `n1 + m` returns
`shouldAlert = false` with the cooldown reason — whatever the second
signal is, i.e. regardless of its computed severity. -/
theorem cooldown_suppresses_second_alert (s1 s2 : AlertSignal) (t1 t2 : Ticket)
    (cd : CooldownMap) (n1 n2 threshold m : ℚ)
    (hk : cooldownKey t2 = cooldownKey t1)
    (h1 : (checkAlerts s1 t1 cd n1 threshold m).1.should_alert = true)
    (h2 : shouldTriggerAlert s2 t2 threshold = true)
    (h3 : n2 < n1 + m) :
    (checkAlerts s2 t2 (checkAlerts s1 t1 cd n1 threshold m).2
        n2 threshold m).1.should_alert = false ∧
    (checkAlerts s2 t2 (checkAlerts s1 t1 cd n1 threshold m).2
        n2 threshold m).1.reason = some "Alert in cooldown period" := by
  have hstate : (checkAlerts s1 t1 cd n1 threshold m).2
      = updateCooldown cd (cooldownKey t1) n1 m := by
    unfold checkAlerts at h1 ⊢
    split_ifs at h1 ⊢ with ht hc
    rfl
  have hcool : isInCooldown (updateCooldown cd (cooldownKey t1) n1 m)
      (cooldownKey t2) n2 = true := by
    rw [hk]
    unfold isInCooldown updateCooldown
    rw [lookup_cooldownSet]
    exact decide_eq_true h3
  refine ⟨?_, ?_⟩ <;>
    rw [hstate] <;>
    · unfold checkAlerts
      rw [if_neg (fun hn => hn h2), if_pos hcool]

/-- C2 witness: first alert at time 0 (sentiment −1 with threshold 0,
15-minute cooldown), second alert-eligible event for the same key at
time 5 — higher severity (sentiment −2, anger 1) — is suppressed with
the cooldown reason. -/
theorem cooldown_suppresses_second_alert_witness :
    (checkAlerts ⟨-2, 1, 1⟩
        ⟨"email", "support", "low", "standard", 0, none, false, ""⟩
        (checkAlerts ⟨-1, 0, 0⟩
          ⟨"email", "support", "low", "standard", 0, none, false, ""⟩
          [] 0 0 15).2
        5 0 15).1.should_alert = false ∧
    (checkAlerts ⟨-2, 1, 1⟩
        ⟨"email", "support", "low", "standard", 0, none, false, ""⟩
        (checkAlerts ⟨-1, 0, 0⟩
          ⟨"email", "support", "low", "standard", 0, none, false, ""⟩
          [] 0 0 15).2
        5 0 15).1.reason = some "Alert in cooldown period" :=
  cooldown_suppresses_second_alert ⟨-1, 0, 0⟩ ⟨-2, 1, 1⟩
    ⟨"email", "support", "low", "standard", 0, none, false, ""⟩
    ⟨"email", "support", "low", "standard", 0, none, false, ""⟩
    [] 0 5 0 15 rfl rfl rfl (by norm_num)

/-- C10: a `check_alerts` call that returns `should_alert = false` —
no trigger condition met, or key in cooldown — leaves the cooldown map
exactly as it was; a call that returns `should_alert = true` is the only
way an entry is created or refreshed (to `now + cooldown_minutes` for
the call's key). -/
theorem alert_false_leaves_cooldown_unchanged (s : AlertSignal) (t : Ticket)
    (cd : CooldownMap) (now threshold m : ℚ) :
    ((checkAlerts s t cd now threshold m).1.should_alert = false →
      (checkAlerts s t cd now threshold m).2 = cd) ∧
    ((checkAlerts s t cd now threshold m).1.should_alert = true →
      (checkAlerts s t cd now threshold m).2
        = updateCooldown cd (cooldownKey t) now m) := by
  unfold checkAlerts
  split_ifs with ht hc <;> constructor <;> intro h <;>
    first
      | rfl
      | simp at h

/-- C10 witness: a triggered event whose key sits in an unexpired
cooldown entry returns `should_alert = false` and leaves the cooldown
map unchanged. -/
theorem alert_false_leaves_cooldown_unchanged_witness :
    (checkAlerts ⟨-1, 0, 0⟩
        ⟨"email", "support", "low", "standard", 0, none, false, ""⟩
        [("email_support", 10)] 5 0 15).2 = [("email_support", 10)] :=
  (alert_false_leaves_cooldown_unchanged ⟨-1, 0, 0⟩
    ⟨"email", "support", "low", "standard", 0, none, false, ""⟩
    [("email_support", 10)] 5 0 15).1 rfl

/-- C8: the trend query computes `trend_direction` by comparing the
first and last entry of the filtered window — `improving` above +0.1,
`declining` below −0.1, else `stable`, and `stable` with fewer than two
points; for the window with scores `[0.5, -0.5, 0.0]` appended in order
it reports one positive, one negative and one neutral entry and
direction `declining` (first 0.5 vs last 0.0). -/
theorem trend_direction_first_vs_last :
    (∀ d : Snapshot,
      (calculateTrendMetrics [d]).map TrendMetrics.trend_direction = some "stable") ∧
    (∀ (first : Snapshot) (rest : List Snapshot), rest ≠ [] →
      (calculateTrendMetrics (first :: rest)).map TrendMetrics.trend_direction
        = some
          (if ((first :: rest).getLast (List.cons_ne_nil first rest)).sentiment_score
                - first.sentiment_score > 0.1 then "improving"
           else if ((first :: rest).getLast (List.cons_ne_nil first rest)).sentiment_score
                - first.sentiment_score < -0.1 then "declining"
           else "stable")) ∧
    (getTrendsForKey
        [⟨93/10, 1/2, 0, 0, 0, 0, 0, "normal"⟩,
         ⟨95/10, -1/2, 0, 0, 0, 0, 0, "normal"⟩,
         ⟨97/10, 0, 0, 0, 0, 0, 0, "normal"⟩] 10 "1h").map
      (fun mtr => (mtr.positive_count, mtr.negative_count, mtr.neutral_count,
        mtr.trend_direction)) = some (1, 1, 1, "declining") := by
  refine ⟨?_, ?_, ?_⟩
  · intro d
    norm_num [calculateTrendMetrics]
  · intro first rest hne
    cases rest with
    | nil => exact absurd rfl hne
    | cons b bs =>
      norm_num [calculateTrendMetrics]
  · norm_num +decide [getTrendsForKey, periodHours, calculateTrendMetrics,
      List.getLast, defaultSnapshot]

/-- C8 witness: two equal snapshots give direction `stable` through the
first-versus-last comparison. -/
theorem trend_direction_first_vs_last_witness :
    (calculateTrendMetrics [defaultSnapshot, defaultSnapshot]).map
      TrendMetrics.trend_direction = some "stable" := by
  have h := trend_direction_first_vs_last.2.1 defaultSnapshot [defaultSnapshot]
    (by simp)
  norm_num [defaultSnapshot, List.getLast] at h ⊢
  exact h

end Watchdog
